import Mathlib

/-!
Verification of the Street Sweeper GPS trace processor
(`src/components/StreetSweeperApp.tsx`, primary copy, together with the GPS
watcher in `src/components/MapLibre.tsx`).

Modelling conventions:
- JavaScript numbers for coordinates, distances and timestamps are modelled by
  `ℚ`; the only floating-point effect the code relies on is division by zero,
  which is modelled explicitly by `JsNum`/`jsDiv` (JS `x / 0 = Infinity` for
  `x > 0`, and `0 / 0 = NaN`).
- `calculateDistance` (haversine over `Math.sin`/`Math.cos`/`Math.atan2`) is
  transcendental, so the whole development is parameterised by the distance
  function `D : ℚ → ℚ → ℚ → ℚ → ℚ` (arguments `lat1 lng1 lat2 lng2`).  No
  claim depends on particular haversine values, only on properties the real
  function has, which are taken as hypotheses where needed (a point is at
  distance `0` from itself: `Δφ = Δλ = 0` gives `a = 0`, `c = 0`, `R*c = 0`
  exactly, even in floating point).  Witnesses instantiate `D` with the
  computable `mdist` below.
- The segment id string `` `${Math.round(lat*1000)}_${Math.round(lng*1000)}` ``
  is modelled by the pair of its two rounded integers (the string rendering is
  injective in that pair).
- React state updates performed by one handler invocation are collected into a
  single record update; calls to the storage collaborator
  (`saveTraceToDatabase`, `saveSegmentToDatabase`) are modelled as emitted
  `Effect` values.
- The authenticated `user` object is modelled by the boolean `hasUser`.
-/

/-- A raw GPS fix as delivered by the geolocation watcher: latitude,
longitude, reported accuracy, and the wall-clock value `Date.now()` observed
when the handler runs (the code stamps the point with `now` itself). -/
structure LocationFix where
  lat : ℚ
  lng : ℚ
  acc : ℚ
  now : ℚ
  deriving DecidableEq

/-- `LocationPoint` of the source: `{ lat, lng, timestamp }`. -/
structure LocationPoint where
  lat : ℚ
  lng : ℚ
  timestamp : ℚ
  deriving DecidableEq

/-- `PaintedSegment` of the source: id (the pair of 3-decimal rounded
coordinates backing the id string), LineString geometry as `[lng, lat]`
pairs, and the visit count. -/
structure PaintedSegment where
  id : ℤ × ℤ
  geometry : List (ℚ × ℚ)
  visitCount : ℕ
  deriving DecidableEq

/-- JavaScript division results relevant here: a finite number, a signed
infinity (division of a nonzero value by zero), or NaN (`0 / 0`). -/
inductive JsNum where
  | fin : ℚ → JsNum
  | posInf : JsNum
  | negInf : JsNum
  | nan : JsNum
  deriving DecidableEq

/-- JavaScript `a / b` on our rationals: ordinary division when `b ≠ 0`,
a signed infinity (or NaN) when `b = 0`. -/
def jsDiv (a b : ℚ) : JsNum :=
  if b = 0 then
    if 0 < a then JsNum.posInf else if a < 0 then JsNum.negInf else JsNum.nan
  else JsNum.fin (a / b)

/-- JavaScript `Math.round`: round half toward positive infinity. -/
def jsRound (q : ℚ) : ℤ := ⌊q + 1/2⌋

/-- The segment key `` `${Math.round(lat*1000)}_${Math.round(lng*1000)}` ``,
as the pair of rounded integers. -/
def segKey (lat lng : ℚ) : ℤ × ℤ := (jsRound (lat * 1000), jsRound (lng * 1000))

/-- A call to the storage collaborator emitted by the component:
`saveTraceToDatabase` with the trace snapshot (`[lng, lat]` pairs), or
`saveSegmentToDatabase` with the new segment and its distance. -/
inductive Effect where
  | flushTrace : List (ℚ × ℚ) → Effect
  | saveSegment : PaintedSegment → ℚ → Effect
  deriving DecidableEq

/-- The React component state relevant to the tracking core. -/
structure AppState where
  hasUser : Bool
  isTracking : Bool
  currentLocation : Option LocationPoint
  locationHistory : List LocationPoint
  paintedSegments : List PaintedSegment
  currentTraceId : Option ℕ
  gpsTrace : List (ℚ × ℚ)
  totalDistance : ℚ
  streetsDiscovered : ℕ
  trackingTime : ℕ
  currentSpeed : JsNum
  gpsAccuracy : ℚ
  deriving DecidableEq

/-- The body of `setPaintedSegments(prev => ...)` at
`StreetSweeperApp.tsx:180-208`, together with the `setStreetsDiscovered` and
`saveSegmentToDatabase` calls of its new-segment branch.  Returns the new
segment list, the new streets-discovered count, and the emitted storage
calls. -/
def paintUpdate (hasUser : Bool) (segs : List PaintedSegment) (streets : ℕ)
    (lastPoint : LocationPoint) (lat lng dist : ℚ) :
    List PaintedSegment × ℕ × List Effect :=
  match segs.find? (fun s => decide (s.id = segKey lat lng)) with
  | some _ =>
      (segs.map (fun s =>
        if s.id = segKey lat lng then { s with visitCount := s.visitCount + 1 } else s),
       streets, [])
  | none =>
      let newSegment : PaintedSegment :=
        { id := segKey lat lng
          geometry := [(lastPoint.lng, lastPoint.lat), (lng, lat)]
          visitCount := 1 }
      (segs ++ [newSegment], streets + 1,
       if hasUser then [Effect.saveSegment newSegment dist] else [])

/-- `handleLocationUpdate` at `StreetSweeperApp.tsx:134-215`, parameterised by
the distance function `D`.  Returns the updated component state and the
storage calls issued during the update.

Mirrored structure:
- `setCurrentLocation` / `setGpsAccuracy` happen unconditionally;
- under `isTracking`, the point is appended to `gpsTrace` and a trace save is
  issued when `user && newTrace.length % 15 === 0`;
- the speed/distance block uses `prev[prev.length - 1]` (the previous history
  entry) and the `distance > 0.5` jitter gate, with no guard on `timeDiff`;
- the painting block uses `updated[updated.length - 1]` — which is the point
  just appended, i.e. the current point itself — and the `distance > 20`
  gate. -/
def handleLocationUpdate (D : ℚ → ℚ → ℚ → ℚ → ℚ) (st : AppState) (f : LocationFix) :
    AppState × List Effect :=
  let newLocation : LocationPoint := { lat := f.lat, lng := f.lng, timestamp := f.now }
  if st.isTracking then
    let newTrace := st.gpsTrace ++ [(f.lng, f.lat)]
    let flushEffs : List Effect :=
      if st.hasUser ∧ newTrace.length % 15 = 0 then [Effect.flushTrace newTrace] else []
    let updated := st.locationHistory ++ [newLocation]
    let speedDist : ℚ × JsNum :=
      match st.locationHistory.getLast? with
      | none => (st.totalDistance, st.currentSpeed)
      | some lastLocation =>
          let timeDiff := (f.now - lastLocation.timestamp) / 1000
          let dist := D lastLocation.lat lastLocation.lng f.lat f.lng
          if 1/2 < dist then (st.totalDistance + dist, jsDiv dist timeDiff)
          else (st.totalDistance, st.currentSpeed)
    let paintRes : List PaintedSegment × ℕ × List Effect :=
      if 1 < updated.length then
        match updated.getLast? with
        | none => (st.paintedSegments, st.streetsDiscovered, [])
        | some lastPoint =>
            let dist2 := D lastPoint.lat lastPoint.lng f.lat f.lng
            if 20 < dist2 then
              paintUpdate st.hasUser st.paintedSegments st.streetsDiscovered
                lastPoint f.lat f.lng dist2
            else (st.paintedSegments, st.streetsDiscovered, [])
      else (st.paintedSegments, st.streetsDiscovered, [])
    ({ st with
        currentLocation := some newLocation
        gpsAccuracy := f.acc
        gpsTrace := newTrace
        totalDistance := speedDist.1
        currentSpeed := speedDist.2
        paintedSegments := paintRes.1
        streetsDiscovered := paintRes.2.1
        locationHistory := updated },
     flushEffs ++ paintRes.2.2)
  else
    ({ st with currentLocation := some newLocation, gpsAccuracy := f.acc }, [])

/-- The GPS watcher callback of `MapLibre.tsx:240-296`: a fix whose reported
accuracy exceeds 50 is skipped before `onLocationUpdate` is invoked; an
accepted fix is forwarded to `handleLocationUpdate`. -/
def ingest (D : ℚ → ℚ → ℚ → ℚ → ℚ) (st : AppState) (f : LocationFix) :
    AppState × List Effect :=
  if 50 < f.acc then (st, []) else handleLocationUpdate D st f

/-- Sequential processing of a list of accepted fixes through
`handleLocationUpdate`, collecting emitted storage calls in order. -/
def runFixes (D : ℚ → ℚ → ℚ → ℚ → ℚ) (st : AppState) :
    List LocationFix → AppState × List Effect
  | [] => (st, [])
  | f :: fs =>
      let r := handleLocationUpdate D st f
      let rest := runFixes D r.1 fs
      (rest.1, r.2 ++ rest.2)

/-- `handleStartTracking` at `StreetSweeperApp.tsx:271-287`: with no
authenticated user it only opens the auth modal; otherwise it sets tracking,
resets the timer, clears the GPS trace and the remote trace id.  It does not
touch `totalDistance`, `paintedSegments`, `locationHistory` or
`currentSpeed`. -/
def handleStartTracking (st : AppState) : AppState :=
  if st.hasUser then
    { st with isTracking := true, trackingTime := 0, gpsTrace := [], currentTraceId := none }
  else st

/-- `handlePauseTracking` at `StreetSweeperApp.tsx:289-292`. -/
def handlePauseTracking (st : AppState) : AppState :=
  { st with isTracking := false }

/-- `handleStopTracking` at `StreetSweeperApp.tsx:294-306`: stops tracking,
zeroes the timer and speed, clears the location history, and issues a final
trace save when a user is present and the trace is nonempty. -/
def handleStopTracking (st : AppState) : AppState × List Effect :=
  ({ st with
      isTracking := false
      trackingTime := 0
      locationHistory := []
      currentSpeed := JsNum.fin 0 },
   if st.hasUser ∧ 0 < st.gpsTrace.length then [Effect.flushTrace st.gpsTrace] else [])

/-- One second of the tracking timer (`StreetSweeperApp.tsx:123-131`). -/
def tick (st : AppState) : AppState :=
  if st.isTracking then { st with trackingTime := st.trackingTime + 1 } else st

/-- A persisted trace point as built by `saveTraceToDatabase`. -/
structure SavedPoint where
  lat : ℚ
  lng : ℚ
  timestamp : ℚ
  deriving DecidableEq

/-- The point construction of `saveTraceToDatabase` at
`StreetSweeperApp.tsx:217-240`:
`traceCoords.map(([lng, lat]) => ({ lat, lng, timestamp: Date.now() }))`,
where `now` is the wall clock at flush time. -/
def saveTraceToDatabase (traceCoords : List (ℚ × ℚ)) (now : ℚ) : List SavedPoint :=
  traceCoords.map (fun c => { lat := c.2, lng := c.1, timestamp := now })

/-- The trace snapshots among a list of emitted storage calls. -/
def flushesOf : List Effect → List (List (ℚ × ℚ))
  | [] => []
  | Effect.flushTrace t :: rest => t :: flushesOf rest
  | Effect.saveSegment _ _ :: rest => flushesOf rest

/-- The segment saves among a list of emitted storage calls. -/
def segSavesOf : List Effect → List (PaintedSegment × ℚ)
  | [] => []
  | Effect.flushTrace _ :: rest => segSavesOf rest
  | Effect.saveSegment s d :: rest => (s, d) :: segSavesOf rest

/-- Intended flush schedule: walking the fixes, a flush of the full trace so
far fires exactly when its length reaches a multiple of 15. -/
def flushSpec (base : List (ℚ × ℚ)) : List LocationFix → List (List (ℚ × ℚ))
  | [] => []
  | f :: fs =>
      let t := base ++ [(f.lng, f.lat)]
      (if t.length % 15 = 0 then [t] else []) ++ flushSpec t fs

/-- A concrete computable distance function used by witnesses: a scaled
taxicab metric.  It shares with the haversine the properties the theorems
assume: it is nonnegative and a point is at distance zero from itself. -/
def mdist (lat1 lng1 lat2 lng2 : ℚ) : ℚ :=
  111000 * ((if lat1 ≤ lat2 then lat2 - lat1 else lat1 - lat2) +
    (if lng1 ≤ lng2 then lng2 - lng1 else lng1 - lng2))

/-- A reference state: signed-in user, not tracking, everything empty. -/
def initState : AppState where
  hasUser := true
  isTracking := false
  currentLocation := none
  locationHistory := []
  paintedSegments := []
  currentTraceId := none
  gpsTrace := []
  totalDistance := 0
  streetsDiscovered := 0
  trackingTime := 0
  currentSpeed := JsNum.fin 0
  gpsAccuracy := 0

/-- Fixture: a tracking state whose last accepted fix is at (0,0), t = 2000 ms. -/
def stC3 : AppState :=
  { initState with isTracking := true, locationHistory := [⟨0, 0, 2000⟩], gpsTrace := [(0, 0)] }

/-- Fixture: a fix 111 m away (per `mdist`) whose clock reads 1000 ms, earlier
than the previous accepted fix. -/
def fC3 : LocationFix := ⟨1/1000, 0, 10, 1000⟩

/-- Fixture: the state right after `handleStartTracking` from `initState`. -/
def stC6 : AppState := handleStartTracking initState

/-- Fixture fixes for the jitter scenario: a baseline fix, a 111 m movement,
then a 0.111 m movement. -/
def fC6a : LocationFix := ⟨0, 0, 10, 0⟩

/-- Second jitter-scenario fix: 111 m from the first, 10 s later. -/
def fC6b : LocationFix := ⟨1/1000, 0, 10, 10000⟩

/-- Third jitter-scenario fix: 0.111 m from the second, 10 s later. -/
def fC6c : LocationFix := ⟨1/1000 + 1/1000000, 0, 10, 20000⟩

/-- Fixture: an idle signed-in state carrying 100 m of accumulated distance. -/
def stC4 : AppState := { initState with totalDistance := 100 }

/-- Fixture: an active session with a 5-second timer and one buffered point. -/
def stC5 : AppState :=
  { initState with isTracking := true, trackingTime := 5, gpsTrace := [(1, 2)] }

/-- Fixture: an active session with an empty trace buffer. -/
def stC8 : AppState := { initState with isTracking := true }

/-- Fixture: an active session with a nonempty trace buffer, mid-batch. -/
def stC8b : AppState :=
  { initState with isTracking := true, gpsTrace := [(1, 2), (3, 4)] }

/-- Fixture: a tracking state whose last accepted fix is at (40, -74). -/
def stC2 : AppState :=
  { initState with isTracking := true, locationHistory := [⟨40, -74, 0⟩], gpsTrace := [(-74, 40)] }

/-- Fixture: a fix 111 m (per `mdist`) from the previous accepted fix. -/
def fC2 : LocationFix := ⟨40 + 1/1000, -74, 10, 10000⟩

/-- Fixture: a painted segment at the grid cell of (40, -74) with one visit. -/
def segW : PaintedSegment := ⟨(40000, -74000), [(-74, 40), (-74, 40 + 1/1000)], 1⟩

/-- Fixture: an arbitrary previous point for a paint call. -/
def lpW : LocationPoint := ⟨40 - 1/1000, -74, 500⟩

/-- Fixture: an all-zero fix used to exercise the batch-flush schedule. -/
def fW : LocationFix := ⟨0, 0, 10, 0⟩

/-- Fixture: a freshly started session (`handleStartTracking` from
`initState`). -/
def stC7 : AppState := handleStartTracking initState

theorem flushesOf_append (a b : List Effect) :
    flushesOf (a ++ b) = flushesOf a ++ flushesOf b := by
  induction a with
  | nil => rfl
  | cons e rest ih => cases e <;> simp [flushesOf, ih]

theorem segSavesOf_append (a b : List Effect) :
    segSavesOf (a ++ b) = segSavesOf a ++ segSavesOf b := by
  induction a with
  | nil => rfl
  | cons e rest ih => cases e <;> simp [segSavesOf, ih]

theorem flushesOf_paintUpdate (u : Bool) (segs : List PaintedSegment) (n : ℕ)
    (lp : LocationPoint) (la ln d : ℚ) :
    flushesOf (paintUpdate u segs n lp la ln d).2.2 = [] := by
  unfold paintUpdate
  split
  · rfl
  · split <;> rfl

theorem handle_isTracking (D : ℚ → ℚ → ℚ → ℚ → ℚ) (st : AppState) (f : LocationFix) :
    (handleLocationUpdate D st f).1.isTracking = st.isTracking := by
  cases h : st.isTracking <;> simp [handleLocationUpdate, h]

theorem handle_hasUser (D : ℚ → ℚ → ℚ → ℚ → ℚ) (st : AppState) (f : LocationFix) :
    (handleLocationUpdate D st f).1.hasUser = st.hasUser := by
  cases h : st.isTracking <;> simp [handleLocationUpdate, h]

theorem handle_gpsTrace (D : ℚ → ℚ → ℚ → ℚ → ℚ) (st : AppState) (f : LocationFix)
    (ht : st.isTracking = true) :
    (handleLocationUpdate D st f).1.gpsTrace = st.gpsTrace ++ [(f.lng, f.lat)] := by
  simp [handleLocationUpdate, ht]

theorem handle_flushes (D : ℚ → ℚ → ℚ → ℚ → ℚ) (st : AppState) (f : LocationFix)
    (ht : st.isTracking = true) (hu : st.hasUser = true) :
    flushesOf (handleLocationUpdate D st f).2
      = if (st.gpsTrace.length + 1) % 15 = 0
        then [st.gpsTrace ++ [(f.lng, f.lat)]] else [] := by
  simp only [handleLocationUpdate, ht, if_true, hu, true_and, flushesOf_append,
    List.length_append, List.length_cons, List.length_nil]
  rw [List.getLast?_concat]
  by_cases hlen : 1 < st.locationHistory.length + 1 <;>
    by_cases hD : 20 < D f.lat f.lng f.lat f.lng <;>
      by_cases hmod : (st.gpsTrace.length + 1) % 15 = 0 <;>
        simp [hlen, hD, hmod, flushesOf, flushesOf_paintUpdate]

theorem flushes_runFixes (D : ℚ → ℚ → ℚ → ℚ → ℚ) (fs : List LocationFix) :
    ∀ st : AppState, st.isTracking = true → st.hasUser = true →
      flushesOf (runFixes D st fs).2 = flushSpec st.gpsTrace fs := by
  induction fs with
  | nil => intro st ht hu; rfl
  | cons f fs ih =>
      intro st ht hu
      simp only [runFixes, flushesOf_append, flushSpec]
      rw [ih _ (by rw [handle_isTracking]; exact ht) (by rw [handle_hasUser]; exact hu)]
      rw [handle_gpsTrace D st f ht, handle_flushes D st f ht hu]
      simp [List.length_append]

/-- C1: a fix whose reported accuracy exceeds 50 is rejected by the GPS
watcher before it reaches the handler: total distance, current speed, the
painted-segment map and the last-accepted-fix history are unchanged, and no
storage call is issued. -/
theorem c1_accuracy_filter_rejects (D : ℚ → ℚ → ℚ → ℚ → ℚ) (st : AppState)
    (f : LocationFix) (h : 50 < f.acc) :
    (ingest D st f).1.totalDistance = st.totalDistance ∧
    (ingest D st f).1.currentSpeed = st.currentSpeed ∧
    (ingest D st f).1.paintedSegments = st.paintedSegments ∧
    (ingest D st f).1.locationHistory = st.locationHistory ∧
    (ingest D st f).2 = [] := by
  simp [ingest, h]

/-- C1 witness: a concrete fix with accuracy 51 against a concrete tracking
state. -/
theorem c1_accuracy_filter_rejects_witness :
    (50 : ℚ) < 51 ∧
    ((ingest mdist stC3 ⟨1, 1, 51, 3000⟩).1.totalDistance = stC3.totalDistance ∧
     (ingest mdist stC3 ⟨1, 1, 51, 3000⟩).1.currentSpeed = stC3.currentSpeed ∧
     (ingest mdist stC3 ⟨1, 1, 51, 3000⟩).1.paintedSegments = stC3.paintedSegments ∧
     (ingest mdist stC3 ⟨1, 1, 51, 3000⟩).1.locationHistory = stC3.locationHistory ∧
     (ingest mdist stC3 ⟨1, 1, 51, 3000⟩).2 = []) :=
  ⟨by norm_num, c1_accuracy_filter_rejects mdist stC3 ⟨1, 1, 51, 3000⟩ (by norm_num)⟩

/-- C4 counterexample: `handleStartTracking` from an idle signed-in state
with 100 m of accumulated distance does not reset `totalDistance` to 0,
contrary to the claim. -/
theorem c4_start_counterexample :
    stC4.isTracking = false ∧ stC4.hasUser = true ∧
    (handleStartTracking stC4).totalDistance = 100 ∧ (100 : ℚ) ≠ 0 := by
  decide

/-- C4 amended: `start()` from a non-tracking state with a signed-in user
resets the timer to 0, clears the trace buffer and the remote trace id, and
transitions to tracking; `totalDistance` (account-scoped), the segment map,
the location history and the speed are retained, not reset. -/
theorem c4_start_amended (st : AppState) (hu : st.hasUser = true)
    (hi : st.isTracking = false) :
    (handleStartTracking st).isTracking = true ∧
    (handleStartTracking st).trackingTime = 0 ∧
    (handleStartTracking st).gpsTrace = [] ∧
    (handleStartTracking st).currentTraceId = none ∧
    (handleStartTracking st).totalDistance = st.totalDistance ∧
    (handleStartTracking st).paintedSegments = st.paintedSegments ∧
    (handleStartTracking st).locationHistory = st.locationHistory ∧
    (handleStartTracking st).currentSpeed = st.currentSpeed := by
  simp [handleStartTracking, hu]

/-- C4 witness: the amended start behaviour at the concrete idle state. -/
theorem c4_start_amended_witness :
    (stC4.hasUser = true ∧ stC4.isTracking = false) ∧
    ((handleStartTracking stC4).isTracking = true ∧
     (handleStartTracking stC4).trackingTime = 0 ∧
     (handleStartTracking stC4).gpsTrace = [] ∧
     (handleStartTracking stC4).currentTraceId = none ∧
     (handleStartTracking stC4).totalDistance = stC4.totalDistance ∧
     (handleStartTracking stC4).paintedSegments = stC4.paintedSegments ∧
     (handleStartTracking stC4).locationHistory = stC4.locationHistory ∧
     (handleStartTracking stC4).currentSpeed = stC4.currentSpeed) :=
  ⟨by decide, c4_start_amended stC4 (by decide) (by decide)⟩

/-- C5 counterexample: `handleStartTracking` invoked while already tracking
does not fail (there is no error channel at all) and does change the session
state, contrary to the claim that the state is left unchanged. -/
theorem c5_invalid_transition_counterexample :
    stC5.isTracking = true ∧ stC5.hasUser = true ∧ handleStartTracking stC5 ≠ stC5 := by
  decide

/-- C5 amended: there is no typed InvalidTransition failure.  `pause()` from a
non-tracking state leaves the state unchanged; `start()` while tracking (with
a user) silently restarts in place: it stays tracking but resets the timer
and clears the trace buffer and trace id, retaining distance and segments. -/
theorem c5_transitions_amended :
    (∀ st : AppState, st.isTracking = false → handlePauseTracking st = st) ∧
    (∀ st : AppState, st.hasUser = true → st.isTracking = true →
      (handleStartTracking st).isTracking = true ∧
      (handleStartTracking st).trackingTime = 0 ∧
      (handleStartTracking st).gpsTrace = [] ∧
      (handleStartTracking st).currentTraceId = none ∧
      (handleStartTracking st).totalDistance = st.totalDistance ∧
      (handleStartTracking st).paintedSegments = st.paintedSegments) := by
  constructor
  · intro st h
    cases st
    simp_all [handlePauseTracking]
  · intro st hu ht
    simp [handleStartTracking, hu]

/-- C5 witness: both amended transition behaviours at concrete states. -/
theorem c5_transitions_amended_witness :
    (initState.isTracking = false ∧ handlePauseTracking initState = initState) ∧
    ((stC5.hasUser = true ∧ stC5.isTracking = true) ∧
     ((handleStartTracking stC5).isTracking = true ∧
      (handleStartTracking stC5).trackingTime = 0 ∧
      (handleStartTracking stC5).gpsTrace = [] ∧
      (handleStartTracking stC5).currentTraceId = none ∧
      (handleStartTracking stC5).totalDistance = stC5.totalDistance ∧
      (handleStartTracking stC5).paintedSegments = stC5.paintedSegments)) :=
  ⟨⟨by decide, c5_transitions_amended.1 initState (by decide)⟩,
   ⟨by decide, c5_transitions_amended.2 stC5 (by decide) (by decide)⟩⟩

/-- C8 counterexample: stopping an active session whose trace buffer is empty
issues no storage call at all, so the claimed unconditional final flush does
not occur. -/
theorem c8_stop_counterexample :
    stC8.isTracking = true ∧ stC8.hasUser = true ∧ (handleStopTracking stC8).2 = [] := by
  decide

/-- C8 amended: `stop()` transitions out of tracking, resets the timer and the
speed to 0, retains total distance and the segment map, and issues one final
flush of the full buffered trace exactly when the user is signed in and the
buffer is nonempty (an empty buffer produces no flush call). -/
theorem c8_stop_amended (st : AppState) (hu : st.hasUser = true) :
    (handleStopTracking st).1.isTracking = false ∧
    (handleStopTracking st).1.trackingTime = 0 ∧
    (handleStopTracking st).1.currentSpeed = JsNum.fin 0 ∧
    (handleStopTracking st).1.totalDistance = st.totalDistance ∧
    (handleStopTracking st).1.paintedSegments = st.paintedSegments ∧
    (st.gpsTrace ≠ [] → (handleStopTracking st).2 = [Effect.flushTrace st.gpsTrace]) ∧
    (st.gpsTrace = [] → (handleStopTracking st).2 = []) := by
  refine ⟨rfl, rfl, rfl, rfl, rfl, ?_, ?_⟩
  · intro h
    simp [handleStopTracking, hu, List.length_pos.mpr h]
  · intro h
    simp [handleStopTracking, h]

/-- C8 witness: stopping an active session with two buffered points mid-batch
flushes exactly those points. -/
theorem c8_stop_amended_witness :
    stC8b.hasUser = true ∧
    ((handleStopTracking stC8b).1.isTracking = false ∧
     (handleStopTracking stC8b).1.trackingTime = 0 ∧
     (handleStopTracking stC8b).1.currentSpeed = JsNum.fin 0 ∧
     (handleStopTracking stC8b).1.totalDistance = stC8b.totalDistance ∧
     (handleStopTracking stC8b).1.paintedSegments = stC8b.paintedSegments ∧
     (stC8b.gpsTrace ≠ [] → (handleStopTracking stC8b).2 = [Effect.flushTrace stC8b.gpsTrace]) ∧
     (stC8b.gpsTrace = [] → (handleStopTracking stC8b).2 = [])) :=
  ⟨by decide, c8_stop_amended stC8b (by decide)⟩

/-- C10: the points persisted by a flush preserve each buffered point's
latitude and longitude, and every one of them carries the single wall-clock
timestamp taken at flush time (the buffer stores no original fix
timestamps). -/
theorem c10_flush_timestamps (coords : List (ℚ × ℚ)) (t : ℚ) :
    (saveTraceToDatabase coords t).map (fun p => (p.lng, p.lat)) = coords ∧
    ∀ p ∈ saveTraceToDatabase coords t, p.timestamp = t := by
  constructor
  · simp [saveTraceToDatabase, List.map_map, Function.comp_def]
  · intro p hp
    simp only [saveTraceToDatabase, List.mem_map] at hp
    obtain ⟨c, _, rfl⟩ := hp
    rfl

/-- C10 witness: a concrete two-point flush at flush time 99. -/
theorem c10_flush_timestamps_witness :
    (saveTraceToDatabase [((2 : ℚ), (3 : ℚ)), (4, 5)] 99).map (fun p => (p.lng, p.lat))
        = [((2 : ℚ), (3 : ℚ)), (4, 5)] ∧
    ∀ p ∈ saveTraceToDatabase [((2 : ℚ), (3 : ℚ)), (4, 5)] 99, p.timestamp = 99 :=
  c10_flush_timestamps [((2 : ℚ), (3 : ℚ)), (4, 5)] 99

/-- C3 counterexample: a fix whose clock value (1000 ms) is below the previous
accepted fix's timestamp (2000 ms) is not treated as a zero-delta no-op: the
111 m movement is added to the total and the speed becomes -111 m/s
(distance divided by the negative dt), not 0. -/
theorem c3_nonmonotonic_counterexample :
    stC3.isTracking = true ∧
    stC3.locationHistory.getLast? = some ⟨0, 0, 2000⟩ ∧
    fC3.now ≤ 2000 ∧
    stC3.totalDistance = 0 ∧
    (handleLocationUpdate mdist stC3 fC3).1.totalDistance = 111 ∧
    (handleLocationUpdate mdist stC3 fC3).1.currentSpeed = JsNum.fin (-111) := by
  refine ⟨rfl, rfl, by norm_num [fC3], rfl, ?_, ?_⟩ <;>
    norm_num [handleLocationUpdate, stC3, fC3, initState, mdist, jsDiv]

/-- C3 amended: the update has no timestamp guard.  For a fix whose timestamp
is at or before the previous accepted fix's, the ordinary rule applies: when
the movement exceeds 0.5 m the distance is still added to the total and the
speed is set to distance divided by the (zero or negative) dt — `jsDiv`
yields a positive infinity for dt = 0 and a negative value for dt < 0.  No
failure is surfaced (the handler is total and returns normally). -/
theorem c3_nonmonotonic_no_guard (D : ℚ → ℚ → ℚ → ℚ → ℚ) (st : AppState)
    (f : LocationFix) (lastLocation : LocationPoint)
    (ht : st.isTracking = true)
    (hl : st.locationHistory.getLast? = some lastLocation)
    (hts : f.now ≤ lastLocation.timestamp)
    (hd : 1/2 < D lastLocation.lat lastLocation.lng f.lat f.lng) :
    (handleLocationUpdate D st f).1.totalDistance
        = st.totalDistance + D lastLocation.lat lastLocation.lng f.lat f.lng ∧
    (handleLocationUpdate D st f).1.currentSpeed
        = jsDiv (D lastLocation.lat lastLocation.lng f.lat f.lng)
            ((f.now - lastLocation.timestamp) / 1000) := by
  have hd2 : (2 : ℚ)⁻¹ < D lastLocation.lat lastLocation.lng f.lat f.lng := by
    rw [← one_div]
    exact hd
  simp [handleLocationUpdate, ht, hl, hd2]

/-- C3 witness: the amended behaviour at the concrete backwards-clock fix. -/
theorem c3_nonmonotonic_no_guard_witness :
    (stC3.isTracking = true ∧
     stC3.locationHistory.getLast? = some ⟨0, 0, 2000⟩ ∧
     fC3.now ≤ (2000 : ℚ) ∧
     1/2 < mdist 0 0 fC3.lat fC3.lng) ∧
    ((handleLocationUpdate mdist stC3 fC3).1.totalDistance
        = stC3.totalDistance + mdist 0 0 fC3.lat fC3.lng ∧
     (handleLocationUpdate mdist stC3 fC3).1.currentSpeed
        = jsDiv (mdist 0 0 fC3.lat fC3.lng) ((fC3.now - 2000) / 1000)) :=
  ⟨⟨rfl, rfl, by norm_num [fC3], by norm_num [mdist, fC3]⟩,
   c3_nonmonotonic_no_guard mdist stC3 fC3 ⟨0, 0, 2000⟩
     rfl rfl (by norm_num [fC3]) (by norm_num [mdist, fC3])⟩

/-- C6 counterexample: after a 111 m movement sets the speed to 11.1 m/s, a
third accepted fix 0.111 m from the second (below the 0.5 m jitter floor)
leaves `currentSpeed` at 11.1 m/s — the claim's `speed_mps = 0` is false. -/
theorem c6_jitter_counterexample :
    mdist fC6b.lat fC6b.lng fC6c.lat fC6c.lng < 1/2 ∧
    (runFixes mdist stC6 [fC6a, fC6b, fC6c]).1.totalDistance = 111 ∧
    (runFixes mdist stC6 [fC6a, fC6b, fC6c]).1.currentSpeed = JsNum.fin (111/10) ∧
    (runFixes mdist stC6 [fC6a, fC6b, fC6c]).1.currentSpeed ≠ JsNum.fin 0 := by
  refine ⟨by norm_num [mdist, fC6b, fC6c], ?_, ?_, ?_⟩ <;>
    norm_num [runFixes, handleLocationUpdate, stC6, handleStartTracking, initState,
      fC6a, fC6b, fC6c, mdist, jsDiv]

/-- C6 amended: a movement below the 0.5 m jitter floor contributes no
distance and leaves `currentSpeed` unchanged at its previous value (it is not
reset to 0), while the internal reference point still advances: the new
location is appended to the history, so the next fix measures its distance
from this one. -/
theorem c6_jitter_amended (D : ℚ → ℚ → ℚ → ℚ → ℚ) (st : AppState)
    (f : LocationFix) (lastLocation : LocationPoint)
    (ht : st.isTracking = true)
    (hl : st.locationHistory.getLast? = some lastLocation)
    (hd : D lastLocation.lat lastLocation.lng f.lat f.lng < 1/2) :
    (handleLocationUpdate D st f).1.totalDistance = st.totalDistance ∧
    (handleLocationUpdate D st f).1.currentSpeed = st.currentSpeed ∧
    (handleLocationUpdate D st f).1.locationHistory
        = st.locationHistory ++ [⟨f.lat, f.lng, f.now⟩] := by
  have hnot : ¬((2 : ℚ)⁻¹ < D lastLocation.lat lastLocation.lng f.lat f.lng) := by
    rw [← one_div]
    exact not_lt.mpr hd.le
  simp [handleLocationUpdate, ht, hl, hnot]

/-- C6 witness: the amended jitter behaviour at a concrete sub-0.5 m step. -/
theorem c6_jitter_amended_witness :
    (stC3.isTracking = true ∧
     stC3.locationHistory.getLast? = some ⟨0, 0, 2000⟩ ∧
     mdist 0 0 (1/1000000) 0 < 1/2) ∧
    ((handleLocationUpdate mdist stC3 ⟨1/1000000, 0, 10, 3000⟩).1.totalDistance
        = stC3.totalDistance ∧
     (handleLocationUpdate mdist stC3 ⟨1/1000000, 0, 10, 3000⟩).1.currentSpeed
        = stC3.currentSpeed ∧
     (handleLocationUpdate mdist stC3 ⟨1/1000000, 0, 10, 3000⟩).1.locationHistory
        = stC3.locationHistory ++ [⟨1/1000000, 0, 3000⟩]) :=
  ⟨⟨rfl, rfl, by norm_num [mdist]⟩,
   c6_jitter_amended mdist stC3 ⟨1/1000000, 0, 10, 3000⟩ ⟨0, 0, 2000⟩
     rfl rfl (by norm_num [mdist])⟩


theorem segSavesOf_ite_flush (c : Prop) [Decidable c] (t : List (ℚ × ℚ)) :
    segSavesOf (if c then [Effect.flushTrace t] else []) = [] := by
  split <;> rfl

/-- C2 (code bug): the road-painting branch of `handleLocationUpdate` is dead:
it measures the painting distance from `updated[updated.length - 1]` — the
point just appended, i.e. the current point itself — so for any distance
function that puts a point at distance 0 from itself the `> 20 m` test never
fires, and no segment is ever created, revisited, or saved, whatever the
state and the incoming fix. -/
theorem c2_painting_branch_dead (D : ℚ → ℚ → ℚ → ℚ → ℚ)
    (hrefl : ∀ a b : ℚ, D a b a b = 0) (st : AppState) (f : LocationFix) :
    (handleLocationUpdate D st f).1.paintedSegments = st.paintedSegments ∧
    (handleLocationUpdate D st f).1.streetsDiscovered = st.streetsDiscovered ∧
    segSavesOf (handleLocationUpdate D st f).2 = [] := by
  have h20 : ¬((20 : ℚ) < 0) := by norm_num
  cases ht : st.isTracking
  · simp [handleLocationUpdate, ht, segSavesOf]
  · by_cases hlen : 1 < st.locationHistory.length + 1 <;>
      simp [handleLocationUpdate, ht, hlen, hrefl, h20, segSavesOf, segSavesOf_append,
        segSavesOf_ite_flush, List.getLast?_concat]

/-- C2 witness: with the concrete `mdist` metric, a fix 111 m from the
previous accepted fix (well beyond 20 m) still paints nothing. -/
theorem c2_painting_branch_dead_witness :
    (∀ a b : ℚ, mdist a b a b = 0) ∧
    20 < mdist 40 (-74) fC2.lat fC2.lng ∧
    ((handleLocationUpdate mdist stC2 fC2).1.paintedSegments = stC2.paintedSegments ∧
     (handleLocationUpdate mdist stC2 fC2).1.streetsDiscovered = stC2.streetsDiscovered ∧
     segSavesOf (handleLocationUpdate mdist stC2 fC2).2 = []) :=
  ⟨fun a b => by simp [mdist],
   by norm_num [mdist, fC2],
   c2_painting_branch_dead mdist (fun a b => by simp [mdist]) stC2 fC2⟩

theorem paintUpdate_idGeom (u : Bool) (segs : List PaintedSegment) (n : ℕ)
    (lp : LocationPoint) (la ln d : ℚ) :
    ∃ tail, (paintUpdate u segs n lp la ln d).1.map (fun s => (s.id, s.geometry))
      = segs.map (fun s => (s.id, s.geometry)) ++ tail := by
  rcases hfind : segs.find? (fun s => decide (s.id = segKey la ln)) with _ | s0
  · refine ⟨[((segKey la ln), [(lp.lng, lp.lat), (ln, la)])], ?_⟩
    simp [paintUpdate, hfind]
  · refine ⟨[], ?_⟩
    simp only [paintUpdate, hfind, List.append_nil, List.map_map]
    apply List.map_congr_left
    intro s _
    by_cases hs : s.id = segKey la ln <;> simp [hs]

theorem handle_paintedSegments (D : ℚ → ℚ → ℚ → ℚ → ℚ) (st : AppState) (f : LocationFix) :
    (handleLocationUpdate D st f).1.paintedSegments = st.paintedSegments ∨
    (handleLocationUpdate D st f).1.paintedSegments
      = (paintUpdate st.hasUser st.paintedSegments st.streetsDiscovered
          ⟨f.lat, f.lng, f.now⟩ f.lat f.lng (D f.lat f.lng f.lat f.lng)).1 := by
  cases ht : st.isTracking
  · left
    simp [handleLocationUpdate, ht]
  · simp only [handleLocationUpdate, ht, if_true, List.getLast?_concat]
    by_cases hlen : 1 < st.locationHistory.length + 1
    · by_cases hD : 20 < D f.lat f.lng f.lat f.lng
      · right
        simp [hlen, hD]
      · left
        simp [hlen, hD]
    · left
      simp [hlen]

/-- C9: revisiting an existing segment key increments only that segment's
visit count, leaving every stored geometry (and the streets-discovered count)
unchanged and issuing no new-segment save; and across every operation of the
component — a location update, start, pause, stop, tick — the id and geometry
of every existing segment are preserved (new ones may only be appended), so a
segment's geometry is fixed at creation. -/
theorem c9_segment_geometry_immutable :
    (∀ (u : Bool) (segs : List PaintedSegment) (n : ℕ) (lp : LocationPoint)
        (la ln d : ℚ) (s0 : PaintedSegment),
        segs.find? (fun s => decide (s.id = segKey la ln)) = some s0 →
        (paintUpdate u segs n lp la ln d).1.map (fun s => (s.id, s.geometry))
            = segs.map (fun s => (s.id, s.geometry)) ∧
        (paintUpdate u segs n lp la ln d).1.map PaintedSegment.visitCount
            = segs.map (fun s =>
                if s.id = segKey la ln then s.visitCount + 1 else s.visitCount) ∧
        (paintUpdate u segs n lp la ln d).2.1 = n ∧
        (paintUpdate u segs n lp la ln d).2.2 = []) ∧
    (∀ (D : ℚ → ℚ → ℚ → ℚ → ℚ) (st : AppState) (f : LocationFix),
        ∃ tail, (handleLocationUpdate D st f).1.paintedSegments.map (fun s => (s.id, s.geometry))
            = st.paintedSegments.map (fun s => (s.id, s.geometry)) ++ tail) ∧
    (∀ st : AppState, (handleStartTracking st).paintedSegments = st.paintedSegments) ∧
    (∀ st : AppState, (handlePauseTracking st).paintedSegments = st.paintedSegments) ∧
    (∀ st : AppState, (handleStopTracking st).1.paintedSegments = st.paintedSegments) ∧
    (∀ st : AppState, (tick st).paintedSegments = st.paintedSegments) := by
  refine ⟨?_, ?_, ?_, ?_, ?_, ?_⟩
  · intro u segs n lp la ln d s0 hfind
    have h1 : paintUpdate u segs n lp la ln d
        = (segs.map (fun s => if s.id = segKey la ln
            then { s with visitCount := s.visitCount + 1 } else s), n, []) := by
      simp only [paintUpdate, hfind]
    rw [h1]
    refine ⟨?_, ?_, rfl, rfl⟩
    · rw [List.map_map]
      apply List.map_congr_left
      intro s _
      by_cases hs : s.id = segKey la ln <;> simp [hs]
    · rw [List.map_map]
      apply List.map_congr_left
      intro s _
      by_cases hs : s.id = segKey la ln <;> simp [hs]
  · intro D st f
    rcases handle_paintedSegments D st f with h | h
    · exact ⟨[], by rw [h, List.append_nil]⟩
    · obtain ⟨tail, htail⟩ :=
        paintUpdate_idGeom st.hasUser st.paintedSegments st.streetsDiscovered
          ⟨f.lat, f.lng, f.now⟩ f.lat f.lng (D f.lat f.lng f.lat f.lng)
      exact ⟨tail, by rw [h]; exact htail⟩
  · intro st
    by_cases hu : st.hasUser <;> simp [handleStartTracking, hu]
  · intro st
    simp [handlePauseTracking]
  · intro st
    simp [handleStopTracking]
  · intro st
    by_cases h : st.isTracking <;> simp [tick, h]

/-- C9 witness: a second visit to the cell of (40, -74) bumps the stored
segment's visit count from 1 to 2 and leaves its geometry untouched. -/
theorem c9_segment_geometry_immutable_witness :
    ([segW].find? (fun s => decide (s.id = segKey 40 (-74))) = some segW) ∧
    ((paintUpdate true [segW] 3 lpW 40 (-74) 25).1.map (fun s => (s.id, s.geometry))
        = [segW].map (fun s => (s.id, s.geometry)) ∧
     (paintUpdate true [segW] 3 lpW 40 (-74) 25).1.map PaintedSegment.visitCount
        = [segW].map (fun s =>
            if s.id = segKey 40 (-74) then s.visitCount + 1 else s.visitCount) ∧
     (paintUpdate true [segW] 3 lpW 40 (-74) 25).2.1 = 3 ∧
     (paintUpdate true [segW] 3 lpW 40 (-74) 25).2.2 = []) :=
  ⟨by norm_num [segW, segKey, jsRound, List.find?],
   c9_segment_geometry_immutable.1 true [segW] 3 lpW 40 (-74) 25 segW
     (by norm_num [segW, segKey, jsRound, List.find?])⟩

/-- C7: from a freshly started session (empty trace buffer, user signed in),
processing exactly 15 accepted fixes emits exactly one trace flush, carrying
the full 15-point sequence in order, while processing only 14 emits none. -/
theorem c7_batch_flush (D : ℚ → ℚ → ℚ → ℚ → ℚ) (st : AppState)
    (ht : st.isTracking = true) (hu : st.hasUser = true) (h0 : st.gpsTrace = []) :
    (∀ f1 f2 f3 f4 f5 f6 f7 f8 f9 f10 f11 f12 f13 f14 f15 : LocationFix,
      flushesOf (runFixes D st
          [f1, f2, f3, f4, f5, f6, f7, f8, f9, f10, f11, f12, f13, f14, f15]).2
        = [[(f1.lng, f1.lat), (f2.lng, f2.lat), (f3.lng, f3.lat), (f4.lng, f4.lat),
            (f5.lng, f5.lat), (f6.lng, f6.lat), (f7.lng, f7.lat), (f8.lng, f8.lat),
            (f9.lng, f9.lat), (f10.lng, f10.lat), (f11.lng, f11.lat), (f12.lng, f12.lat),
            (f13.lng, f13.lat), (f14.lng, f14.lat), (f15.lng, f15.lat)]]) ∧
    (∀ f1 f2 f3 f4 f5 f6 f7 f8 f9 f10 f11 f12 f13 f14 : LocationFix,
      flushesOf (runFixes D st
          [f1, f2, f3, f4, f5, f6, f7, f8, f9, f10, f11, f12, f13, f14]).2 = []) := by
  constructor
  · intro f1 f2 f3 f4 f5 f6 f7 f8 f9 f10 f11 f12 f13 f14 f15
    rw [flushes_runFixes D _ st ht hu, h0]
    simp [flushSpec]
  · intro f1 f2 f3 f4 f5 f6 f7 f8 f9 f10 f11 f12 f13 f14
    rw [flushes_runFixes D _ st ht hu, h0]
    simp [flushSpec]

/-- C7 witness: the batch-flush schedule at a concrete started session with
15 (resp. 14) concrete fixes. -/
theorem c7_batch_flush_witness :
    (stC7.isTracking = true ∧ stC7.hasUser = true ∧ stC7.gpsTrace = []) ∧
    flushesOf (runFixes mdist stC7
        [fW, fW, fW, fW, fW, fW, fW, fW, fW, fW, fW, fW, fW, fW, fW]).2
      = [[(fW.lng, fW.lat), (fW.lng, fW.lat), (fW.lng, fW.lat), (fW.lng, fW.lat),
          (fW.lng, fW.lat), (fW.lng, fW.lat), (fW.lng, fW.lat), (fW.lng, fW.lat),
          (fW.lng, fW.lat), (fW.lng, fW.lat), (fW.lng, fW.lat), (fW.lng, fW.lat),
          (fW.lng, fW.lat), (fW.lng, fW.lat), (fW.lng, fW.lat)]] ∧
    flushesOf (runFixes mdist stC7
        [fW, fW, fW, fW, fW, fW, fW, fW, fW, fW, fW, fW, fW, fW]).2 = [] :=
  ⟨⟨rfl, rfl, rfl⟩,
   (c7_batch_flush mdist stC7 rfl rfl rfl).1 fW fW fW fW fW fW fW fW fW fW fW fW fW fW fW,
   (c7_batch_flush mdist stC7 rfl rfl rfl).2 fW fW fW fW fW fW fW fW fW fW fW fW fW fW⟩
